import Mathlib

/-!
Verification of the scan-orchestration and finding-normalization engine of the
vibe-checker repository, as a shallow embedding in Lean.

The embedding follows `backend/src/services/scanExecutionService.ts`, the
`ZapService` polling loop, and the scan/findings routes
(`backend/src/routes/scans.ts`, the findings router).  External HTTP services
(ZAP, OSV, Semgrep, Trivy, GitHub) are modelled as environments supplying the
settled outcome of each network call, written `Except String α` (a rejected
promise / thrown `Error` is `.error msg`).  JavaScript strings are Lean
`String`s; `x || default` on a possibly-`undefined` field is modelled with
`Option` and `getD`.  Fields of the finding objects that are derived from the
wall clock or the random-number generator (`id` suffixes, `firstSeenAt`,
`lastUpdatedAt`) and the free-text audit fields (`description`,
`recommendation`, `reference`, `rawResult`) are carried through the pipeline
unchanged by the source and are not examined by any claim, so they are either
dropped or replaced by a fixed placeholder, as noted at each definition.
-/

namespace VibeChecker

/-! ## Data model (`scanExecutionService.ts` interfaces) -/

/-- One `(type, value)` entry of `ScanTarget.identifiers`. -/
structure Identifier where
  type : String
  value : String
deriving Repr, DecidableEq

/-- `ScanTarget` (scanExecutionService.ts lines 7-16). -/
structure ScanTarget where
  id : String
  name : String
  identifiers : List Identifier
deriving Repr, DecidableEq

/-- `ScanPolicy` (scanExecutionService.ts lines 18-23).  The untyped
`configurations` record is represented by the two entries the service reads:
`configurations?.exclusions` (read at line 148, `|| []` when absent) and
`configurations?.ruleset` (read at line 483, `|| 'p/security-audit'` when
absent); the `maxReqPerMin`/`spiderDepth`/`mode` entries set by the route are
never read by the service. -/
structure ScanPolicy where
  id : String
  name : String
  tools : List String
  exclusions : Option (List String)
  ruleset : Option String
deriving Repr, DecidableEq

/-- One normalized finding as built by the adapter mapping stages.  The
time/RNG-generated unique id suffix is not modelled (each adapter uses a fixed
placeholder id); free-text audit fields are omitted, see the file comment. -/
structure Finding where
  id : String
  title : String
  severity : String
  status : String
  tool : String
  location : String
  targetId : String
  owaspTop10Tags : List String
deriving Repr, DecidableEq

/-- `ScanResult['summary']` (scanExecutionService.ts lines 32-38): note the
source interface has exactly the five numeric fields below — there is no
`info` bucket. -/
structure Summary where
  total : Nat
  critical : Nat
  high : Nat
  medium : Nat
  low : Nat
deriving Repr, DecidableEq

/-- `ScanResult` (scanExecutionService.ts lines 25-40), without the two
wall-clock timestamp strings. -/
structure ScanResult where
  jobId : String
  status : String
  tools : List String
  findings : List Finding
  summary : Summary
  errors : List String
deriving Repr, DecidableEq

/-! ## String helpers: JS `String.prototype.includes` and the glob→regex test -/

/-- Search for `needle` as a contiguous sublist of `s`; on success return the
remainder of `s` after the first (leftmost) occurrence. -/
def subAfter (needle : List Char) : List Char → Option (List Char)
  | [] => if needle.isEmpty then some [] else none
  | c :: rest =>
    if needle.isPrefixOf (c :: rest) then some ((c :: rest).drop needle.length)
    else subAfter needle rest

/-- JS `haystack.includes(needle)`. -/
def strContains (haystack needle : String) : Bool :=
  (subAfter needle.data haystack.data).isSome

/-- JS `toLowerCase()` for the ASCII range (the only range the mapping tables
and heuristics use), defined characterwise over the string's characters. -/
def jsToLower (s : String) : String :=
  String.mk (s.data.map (fun c =>
    if 'A' ≤ c ∧ c ≤ 'Z' then Char.ofNat (c.toNat + 32) else c))

/-- Split a character list on a separator character; JS `s.split('*')`
semantics (n separators yield n+1 segments, empty segments included). -/
def splitOnCharAux (sep : Char) : List Char → List (List Char)
  | [] => [[]]
  | c :: rest =>
    if c = sep then [] :: splitOnCharAux sep rest
    else
      match splitOnCharAux sep rest with
      | [] => [[c]]
      | seg :: segs => (c :: seg) :: segs

/-- JS `s.split(sep)` for a one-character separator, as strings. -/
def jsSplitOnChar (sep : Char) (s : String) : List String :=
  (splitOnCharAux sep s.data).map String.mk

/-- Match the fixed segments (the pieces between `*`s) in order, each after
the previous one, anywhere in the string. -/
def matchSegsFrom : List (List Char) → List Char → Bool
  | [], _ => true
  | seg :: rest, s =>
    match subAfter seg s with
    | some s' => matchSegsFrom rest s'
    | none => false

/-- Models `new RegExp(pattern.replace(/\x2a/g, '.*')).test(url)`
(scanExecutionService.ts lines 188-190) for patterns whose fixed segments
contain no further regex metacharacters: `test` is an unanchored search, so
the pattern matches iff its fixed segments occur in the url in order. -/
def globRegexTest (pattern url : String) : Bool :=
  matchSegsFrom (splitOnCharAux '*' pattern.data) url.data

/-! ## JS object-literal tables -/

/-- Lookup in a JS object literal written as a key/value list.  A duplicated
key in a JS object literal keeps the value of its **last** occurrence, which
the right fold over later entries reproduces. -/
def jsObjLookup (table : List (String × List String)) (key : String) :
    Option (List String) :=
  table.foldl (fun acc e => if e.1 = key then some e.2 else acc) none

/-- Lookup in a JS object literal with plain string values. -/
def jsStrLookup (table : List (String × String)) (key : String) :
    Option String :=
  table.foldl (fun acc e => if e.1 = key then some e.2 else acc) none

/-- `[...new Set(tags)]`: deduplicate keeping first occurrences. -/
def jsSetDedupAux : List String → List String → List String
  | _, [] => []
  | seen, x :: xs =>
    if x ∈ seen then jsSetDedupAux seen xs
    else x :: jsSetDedupAux (x :: seen) xs

/-- `[...new Set(tags)]` (scanExecutionService.ts line 379). -/
def jsSetDedup (l : List String) : List String := jsSetDedupAux [] l

/-! ## OWASP Top 10 mapping (`mapToOwaspTop10`, lines 233-380) -/

/-- The `cweToOwasp` object literal (lines 240-294), in source order.  Note
the key `'306'` occurs twice in the source (once under the A01 section, once
under the A07 section); `jsObjLookup` reproduces the JS semantics in which the
later `['A07']` entry shadows the earlier `['A01']` entry. -/
def cweToOwasp : List (String × List String) :=
  [ ("284", ["A01"]), ("285", ["A01"]), ("639", ["A01"]), ("306", ["A01"]),
    ("327", ["A02"]), ("326", ["A02"]), ("330", ["A02"]), ("759", ["A02"]),
    ("760", ["A02"]),
    ("89", ["A03"]), ("78", ["A03"]), ("79", ["A03"]), ("91", ["A03"]),
    ("564", ["A03"]), ("943", ["A03"]), ("917", ["A03"]),
    ("693", ["A04"]),
    ("16", ["A05"]), ("209", ["A05"]), ("215", ["A05"]), ("538", ["A05"]),
    ("1104", ["A06"]),
    ("287", ["A07"]), ("306", ["A07"]), ("798", ["A07"]), ("256", ["A07"]),
    ("521", ["A07"]), ("307", ["A07"]),
    ("494", ["A08"]), ("502", ["A08"]), ("829", ["A08"]),
    ("778", ["A09"]), ("117", ["A09"]),
    ("918", ["A10"]) ]

/-- The `wascToOwasp` object literal (lines 297-343), in source order. -/
def wascToOwasp : List (String × List String) :=
  [ ("1", ["A03"]), ("2", ["A07"]), ("3", ["A03"]), ("4", ["A03"]),
    ("5", ["A03"]), ("6", ["A03"]), ("7", ["A03"]), ("8", ["A03"]),
    ("9", ["A03"]), ("10", ["A03"]), ("11", ["A03"]), ("12", ["A03"]),
    ("13", ["A03"]), ("14", ["A03"]), ("15", ["A03"]), ("19", ["A05"]),
    ("20", ["A03"]), ("21", ["A03"]), ("22", ["A03"]), ("23", ["A03"]),
    ("24", ["A03"]), ("25", ["A03"]), ("26", ["A03"]), ("27", ["A03"]),
    ("28", ["A03"]), ("29", ["A03"]), ("30", ["A03"]), ("31", ["A03"]),
    ("32", ["A03"]), ("33", ["A03"]), ("34", ["A03"]), ("35", ["A03"]),
    ("36", ["A03"]), ("37", ["A03"]), ("38", ["A03"]), ("39", ["A03"]),
    ("40", ["A03"]), ("41", ["A03"]), ("42", ["A03"]), ("43", ["A03"]),
    ("44", ["A03"]), ("45", ["A03"]), ("46", ["A03"]), ("47", ["A03"]),
    ("48", ["A10"]) ]

/-- The name-based fallback chain (lines 356-376), applied to the
already-lowercased alert name. -/
def nameHeuristicTags (name : String) : List String :=
  if strContains name "sql injection" || strContains name "sqli" then ["A03"]
  else if strContains name "xss" || strContains name "cross-site scripting" then ["A03"]
  else if strContains name "csrf" || strContains name "cross-site request forgery" then ["A01"]
  else if strContains name "authentication" || strContains name "auth" then ["A07"]
  else if strContains name "authorization" || strContains name "access control" then ["A01"]
  else if strContains name "ssrf" || strContains name "server-side request forgery" then ["A10"]
  else if strContains name "injection" then ["A03"]
  else if strContains name "misconfiguration" || strContains name "configuration" then ["A05"]
  else if strContains name "crypto" || strContains name "encryption" ||
          strContains name "ssl" || strContains name "tls" then ["A02"]
  else []

/-- `mapToOwaspTop10(cweId?, wascId?, alertName?)` (lines 233-380).  Numeric
ids reach the function already stringified (`String(cweId)`); a JS-falsy id
(absent, `''`, numeric 0) is modelled as `none`/`""`, both of which fail the
`if (cwe && ...)` guard exactly as in the source. -/
def mapToOwaspTop10 (cweId wascId alertName : Option String) : List String :=
  let cwe := cweId.getD ""
  let wasc := wascId.getD ""
  let name := jsToLower (alertName.getD "")
  let tags :=
    (if cwe ≠ "" then (jsObjLookup cweToOwasp cwe).getD [] else []) ++
    (if wasc ≠ "" then (jsObjLookup wascToOwasp wasc).getD [] else [])
  let tags := if tags.isEmpty then nameHeuristicTags name else tags
  jsSetDedup tags

/-- The first precedence tier of the spec's reading of `mapToOwaspTop10`: the
tags contributed by the CWE table alone. -/
def cweTierTags (cweId : Option String) : List String :=
  let cwe := cweId.getD ""
  if cwe ≠ "" then (jsObjLookup cweToOwasp cwe).getD [] else []

/-- The second precedence tier: the tags contributed by the WASC table alone. -/
def wascTierTags (wascId : Option String) : List String :=
  let wasc := wascId.getD ""
  if wasc ≠ "" then (jsObjLookup wascToOwasp wasc).getD [] else []

/-! ## Severity maps -/

/-- `mapZapRiskToSeverity` (lines 382-390). -/
def mapZapRiskToSeverity (zapRisk : String) : String :=
  (jsStrLookup
    [("High", "high"), ("Medium", "medium"), ("Low", "low"),
     ("Informational", "info")] zapRisk).getD "medium"

/-- `mapZapConfidenceToConfidence` (lines 392-399). -/
def mapZapConfidenceToConfidence (zapConfidence : String) : String :=
  (jsStrLookup
    [("High", "high"), ("Medium", "medium"), ("Low", "low")]
    zapConfidence).getD "medium"

/-- `mapSemgrepSeverityToSeverity` (lines 665-672). -/
def mapSemgrepSeverityToSeverity (severity : String) : String :=
  (jsStrLookup
    [("ERROR", "high"), ("WARNING", "medium"), ("INFO", "low")]
    severity).getD "medium"

/-- `mapTrivySeverityToSeverity` (lines 674-683). -/
def mapTrivySeverityToSeverity (severity : String) : String :=
  (jsStrLookup
    [("CRITICAL", "critical"), ("HIGH", "high"), ("MEDIUM", "medium"),
     ("LOW", "low"), ("UNKNOWN", "low")] severity).getD "medium"

/-- `mapGitHubSeverityToSeverity` (lines 685-693). -/
def mapGitHubSeverityToSeverity (severity : String) : String :=
  (jsStrLookup
    [("critical", "critical"), ("high", "high"), ("moderate", "medium"),
     ("low", "low")] severity).getD "medium"

/-- `mapIdentifierTypeToEcosystem` (lines 695-704). -/
def mapIdentifierTypeToEcosystem (type : String) : String :=
  (jsStrLookup
    [("npm", "npm"), ("pypi", "PyPI"), ("maven", "Maven"),
     ("cargo", "crates.io"), ("go", "Go")] type).getD type

/-- `calculateSummary` (lines 640-648): `total` is the length of the findings
array and there are exactly four per-severity buckets. -/
def calculateSummary (findings : List Finding) : Summary :=
  { total := findings.length
    critical := (findings.filter (fun f => f.severity = "critical")).length
    high := (findings.filter (fun f => f.severity = "high")).length
    medium := (findings.filter (fun f => f.severity = "medium")).length
    low := (findings.filter (fun f => f.severity = "low")).length }

/-! ## ZAP adapter (`executeZapScan`, lines 136-203, and
`ZapService.waitForScanCompletion`) -/

/-- One ZAP alert as returned by `ZapService.getAlerts`; fields that can be
absent in the wire payload are `Option`s. -/
structure ZapAlert where
  name : Option String
  risk : String
  confidence : String
  url : Option String
  cweid : Option String
  wascid : Option String
deriving Repr, DecidableEq

/-- The timeout message thrown at zapService line 150:
`` `${scanType} scan timed out after ${maxWaitTime / 1000} seconds` ``. -/
def zapWaitMsg (scanType : String) (maxWaitTime : Nat) : String :=
  scanType ++ " scan timed out after " ++ toString (maxWaitTime / 1000) ++ " seconds"

/-- Body of `ZapService.waitForScanCompletion` (zapService lines 122-151).
Every loop iteration ends with a 5000 ms sleep (both on progress < 100 and in
the status-error catch), so the k-th status check happens at elapsed time
5000·k ms and the `while (Date.now() - startTime < maxWaitTime)` guard for
iteration k is `5000 * k < maxWaitTime`.  The structural `fuel` bounds the
recursion; it is chosen in `waitForScanCompletion` strictly larger than the
number of iterations the guard admits, so the `fuel = 0` branch (which returns
the same timeout error as the failed guard) is never the deciding one. -/
def waitForScanCompletionAux (poll : Nat → Except String Nat)
    (scanType : String) (maxWaitTime : Nat) : Nat → Nat → Except String Unit
  | _, 0 => .error (zapWaitMsg scanType maxWaitTime)
  | k, fuel + 1 =>
    if 5000 * k < maxWaitTime then
      match poll k with
      | .ok progress =>
        if progress ≥ 100 then .ok ()
        else waitForScanCompletionAux poll scanType maxWaitTime (k + 1) fuel
      | .error _ => waitForScanCompletionAux poll scanType maxWaitTime (k + 1) fuel
    else .error (zapWaitMsg scanType maxWaitTime)

/-- `ZapService.waitForScanCompletion(scanId, scanType, maxWaitTime)`: resolves
once a poll reports progress ≥ 100, rejects with the timeout message once the
wall clock passes `maxWaitTime`.  `poll k` is the settled outcome of the k-th
status request (`parseInt`-ed; a NaN progress compares false against 100 just
like a progress of 0, and a request error is caught and retried). -/
def waitForScanCompletion (poll : Nat → Except String Nat)
    (scanType : String) (maxWaitTime : Nat) : Except String Unit :=
  waitForScanCompletionAux poll scanType maxWaitTime 0 (maxWaitTime / 5000 + 1)

/-- Outcomes of the ZAP HTTP calls made by one `executeZapScan` run. -/
structure ZapEnv where
  startSpider : Except String String
  spiderStatus : Nat → Except String Nat
  getSpiderResults : Except String (List String)
  getAlerts : Except String (List ZapAlert)

/-- `transformZapAlert` (lines 205-228), restricted to the modelled fields.
The source id `zap-finding-${Date.now()}-${random}` is replaced by the fixed
placeholder `"zap-finding"` (no claim depends on the generated suffix). -/
def transformZapAlert (zapAlert : ZapAlert) (targetId : String) : Finding :=
  { id := "zap-finding"
    title := zapAlert.name.getD "ZAP Security Finding"
    severity := mapZapRiskToSeverity zapAlert.risk
    status := "open"
    tool := "ZAP"
    location := zapAlert.url.getD "Unknown"
    targetId := targetId
    owaspTop10Tags := mapToOwaspTop10 zapAlert.cweid zapAlert.wascid zapAlert.name }

/-- The alert exclusion filter of `executeZapScan` (lines 183-194): when the
policy carries exclusion patterns, keep an alert iff no pattern matches its
url (`alert.url || ''`). -/
def zapFilterAlerts (exclusions : List String) (alerts : List ZapAlert) :
    List ZapAlert :=
  if exclusions.isEmpty then alerts
  else alerts.filter (fun alert =>
    !(exclusions.any (fun pattern => globRegexTest pattern (alert.url.getD ""))))

/-- The `try` body of `executeZapScan` (lines 137-197): skip with `[]` when the
target has no `url` identifier; otherwise spider, poll with a 120000 ms
ceiling, settle passively, fetch alerts, filter by exclusions, and map. -/
def executeZapScanE (env : ZapEnv) (target : ScanTarget) (policy : ScanPolicy) :
    Except String (List Finding) :=
  match target.identifiers.find? (fun i => i.type = "url") with
  | none => .ok []
  | some _urlIdentifier => do
    let exclusions := policy.exclusions.getD []
    let _spiderScanId ← env.startSpider
    let _ ← waitForScanCompletion env.spiderStatus "spider" 120000
    let _spiderResults ← env.getSpiderResults
    let alerts ← env.getAlerts
    pure ((zapFilterAlerts exclusions alerts).map
      (fun alert => transformZapAlert alert target.id))

/-- `executeZapScan` (lines 136-203): the enclosing `catch` (lines 199-202)
turns every error of the body — timeouts included — into a resolved empty
finding list. -/
def executeZapScan (env : ZapEnv) (target : ScanTarget) (policy : ScanPolicy) :
    List Finding :=
  match executeZapScanE env target policy with
  | .ok findings => findings
  | .error _ => []

/-! ## OSV adapter (`executeOSVScan`, lines 401-463) -/

/-- One entry of an OSV vulnerability's `severity` array; `score` is a JS
number, modelled as a rational. -/
structure OSVSeverityEntry where
  score : Option ℚ
deriving Repr, DecidableEq

/-- One vulnerability returned by `OSVService.queryVulnerabilities`; a missing
or non-array `severity` is `none`. -/
structure OSVVuln where
  id : String
  summary : String
  severity : Option (List OSVSeverityEntry)
deriving Repr, DecidableEq

/-- Outcomes of the OSV queries: `queryVulnerabilities name version ecosystem`. -/
structure OSVEnv where
  queryVulnerabilities : String → String → String → Except String (List OSVVuln)

/-- `mapOSVSeverityToSeverity` (lines 651-663): reduce to the entry with the
highest `score || 0` (seed `{score: 0}`), then bucket ≥9 / ≥7 / ≥4. -/
def mapOSVSeverityToSeverity (severity : Option (List OSVSeverityEntry)) : String :=
  match severity with
  | none => "medium"
  | some entries =>
    let highest := entries.foldl
      (fun h s => if (s.score.getD 0) > (h.score.getD 0) then s else h)
      { score := some 0 }
    match highest.score with
    | none => "low"
    | some sc =>
      if sc ≥ 9 then "critical"
      else if sc ≥ 7 then "high"
      else if sc ≥ 4 then "medium"
      else "low"

/-- `executeOSVScan` (lines 401-463): select the `npm`/`pypi`/`maven`
identifiers, skip with `[]` when there are none, and query each package,
swallowing per-package errors (inner catch, lines 452-454).  The destructuring
`const [name, version] = pkg.value.split('@')` leaves `version` undefined when
there is no `@`; the query then uses `version || 'latest'` while the location
string interpolates the raw value (JS renders undefined as `"undefined"`).
The outer catch only rethrows, and the body after it cannot throw, so the
adapter always resolves. -/
def executeOSVScan (env : OSVEnv) (target : ScanTarget) (_policy : ScanPolicy) :
    Except String (List Finding) :=
  let packageIdentifiers := target.identifiers.filter
    (fun i => i.type = "npm" || i.type = "pypi" || i.type = "maven")
  if packageIdentifiers.isEmpty then .ok []
  else .ok (packageIdentifiers.foldl (fun findings pkg =>
    let parts := jsSplitOnChar '@' pkg.value
    let name := parts.getD 0 ""
    let versionOpt := parts[1]?
    let queryVersion :=
      match versionOpt with
      | some v => if v = "" then "latest" else v
      | none => "latest"
    let locationVersion := versionOpt.getD "undefined"
    let ecosystem := mapIdentifierTypeToEcosystem pkg.type
    match env.queryVulnerabilities name queryVersion ecosystem with
    | .error _ => findings
    | .ok vulns => findings ++ vulns.map (fun vuln =>
        { id := "osv-finding"
          title := if vuln.summary = "" then "Dependency Vulnerability" else vuln.summary
          severity := mapOSVSeverityToSeverity vuln.severity
          status := "open"
          tool := "OSV"
          location := name ++ "@" ++ locationVersion
          targetId := target.id
          owaspTop10Tags := ["A06"] })) [])

/-! ## Semgrep adapter (`executeSemgrepScan`, lines 465-533) -/

/-- One Semgrep result row; `check_id || ''`, `message || ''` and
`start?.line || 0` are folded into plain fields. -/
structure SemgrepResult where
  check_id : String
  message : String
  path : String
  start_line : Nat
  severity : String
deriving Repr, DecidableEq

/-- Semgrep service outcomes; `apiKeyConfigured` models the presence of
`process.env.SEMGREP_API_KEY`. -/
structure SemgrepEnv where
  apiKeyConfigured : Bool
  scanRepository : String → String → Except String String
  getScanResults : String → Except String (List SemgrepResult)

/-- The Semgrep-rule → OWASP keyword chain (lines 490-509), applied to the
lowercased `check_id` and `message`.  Its final `else` branch assigns the
default tag `'A03'` ("Default to A03 for most code issues"). -/
def semgrepOwaspTags (checkId0 message0 : String) : List String :=
  let checkId := jsToLower checkId0
  let message := jsToLower message0
  if strContains checkId "sql" || strContains checkId "injection" ||
     strContains message "sql injection" then ["A03"]
  else if strContains checkId "xss" || strContains message "xss" ||
          strContains message "cross-site scripting" then ["A03"]
  else if strContains checkId "auth" || strContains message "authentication" then ["A07"]
  else if strContains checkId "crypto" || strContains message "encryption" ||
          strContains message "cipher" then ["A02"]
  else if strContains checkId "log" || strContains message "logging" then ["A09"]
  else ["A03"]

/-- `executeSemgrepScan` (lines 465-533): resolve `[]` when the API key is not
configured; otherwise **throw** when the target has no `repository` identifier
(line 478; the enclosing catch logs and rethrows, line 531), else scan and map
the results. -/
def executeSemgrepScan (env : SemgrepEnv) (target : ScanTarget)
    (policy : ScanPolicy) : Except String (List Finding) :=
  if !env.apiKeyConfigured then .ok []
  else
    match target.identifiers.find? (fun i => i.type = "repository") with
    | none => .error "No repository identifier found for Semgrep scan"
    | some repoIdentifier => do
      let scanId ← env.scanRepository repoIdentifier.value
        (policy.ruleset.getD "p/security-audit")
      let results ← env.getScanResults scanId
      pure (results.map (fun result =>
        { id := "semgrep-finding"
          title := if result.check_id = "" then "Code Security Issue" else result.check_id
          severity := mapSemgrepSeverityToSeverity result.severity
          status := "open"
          tool := "Semgrep"
          location := result.path ++ ":" ++ toString result.start_line
          targetId := target.id
          owaspTop10Tags := semgrepOwaspTags result.check_id result.message }))

/-! ## Trivy adapter (`executeTrivyScan`, lines 535-589) -/

/-- One Trivy vulnerability row. -/
structure TrivyVuln where
  title : String
  severity : String
  vulnerability_id : String
  package_name : String
  installed_version : String
deriving Repr, DecidableEq

/-- Result of `TrivyService.scanImage`; `vulnerabilities` may be absent. -/
structure TrivyScanResult where
  vulnerabilities : Option (List TrivyVuln)
deriving Repr, DecidableEq

/-- Trivy service outcomes. -/
structure TrivyEnv where
  scanImage : String → Except String TrivyScanResult

/-- `executeTrivyScan` (lines 535-589): select `container`/`image`
identifiers, skip with `[]` when there are none, scan each, swallowing
per-container errors (inner catch, lines 578-580); like OSV, the adapter
always resolves. -/
def executeTrivyScan (env : TrivyEnv) (target : ScanTarget)
    (_policy : ScanPolicy) : Except String (List Finding) :=
  let containerIdentifiers := target.identifiers.filter
    (fun i => i.type = "container" || i.type = "image")
  if containerIdentifiers.isEmpty then .ok []
  else .ok (containerIdentifiers.foldl (fun findings container =>
    match env.scanImage container.value with
    | .error _ => findings
    | .ok scanResult =>
      match scanResult.vulnerabilities with
      | none => findings
      | some vulns => findings ++ vulns.map (fun vuln =>
          { id := "trivy-finding"
            title := if vuln.title = "" then "Container Vulnerability" else vuln.title
            severity := mapTrivySeverityToSeverity vuln.severity
            status := "open"
            tool := "Trivy"
            location := container.value ++ ":" ++ vuln.package_name ++ "@" ++
              vuln.installed_version
            targetId := target.id
            owaspTop10Tags := ["A06"] })) [])

/-! ## GitHub adapter (`executeGitHubScan`, lines 591-637) -/

/-- One GitHub security advisory. -/
structure Advisory where
  summary : String
  severity : String
  ghsa_id : String
  cve_id : String
deriving Repr, DecidableEq

/-- GitHub service outcomes; `tokenConfigured` models the presence of
`process.env.GITHUB_TOKEN`. -/
structure GitHubEnv where
  tokenConfigured : Bool
  getSecurityAdvisories : String → String → Except String (List Advisory)

/-- `executeGitHubScan` (lines 591-637): resolve `[]` when the token is not
configured; **throw** when the target has no `repository` identifier (line
604) or the identifier does not split into truthy `owner`/`repo` parts (line
610); else fetch the advisories and map them with the fixed tags
`['A06', 'A08']`. -/
def executeGitHubScan (env : GitHubEnv) (target : ScanTarget)
    (_policy : ScanPolicy) : Except String (List Finding) :=
  if !env.tokenConfigured then .ok []
  else
    match target.identifiers.find? (fun i => i.type = "repository") with
    | none => .error "No repository identifier found for GitHub scan"
    | some repoIdentifier =>
      let parts := jsSplitOnChar '/' repoIdentifier.value
      let owner := parts.getD 0 ""
      let repo := parts.getD 1 ""
      if owner = "" || repo = "" then
        .error "Invalid repository format. Expected \"owner/repo\""
      else do
        let advisories ← env.getSecurityAdvisories owner repo
        pure (advisories.map (fun advisory =>
          { id := "github-finding"
            title := if advisory.summary = "" then "GitHub Security Advisory" else advisory.summary
            severity := mapGitHubSeverityToSeverity advisory.severity
            status := "open"
            tool := "GitHub"
            location := owner ++ "/" ++ repo
            targetId := target.id
            owaspTop10Tags := ["A06", "A08"] }))

/-! ## Orchestrator (`executeScan`, lines 57-111) -/

/-- The five adapters' service environments. -/
structure AdapterEnv where
  zap : ZapEnv
  osv : OSVEnv
  semgrep : SemgrepEnv
  trivy : TrivyEnv
  github : GitHubEnv

/-- `executeTool` (lines 113-134): dispatch on `tool.toLowerCase()`; an
unknown tool name throws.  The value is the settled outcome of the per-tool
promise handed to `Promise.allSettled`. -/
def executeTool (env : AdapterEnv) (target : ScanTarget) (policy : ScanPolicy)
    (tool : String) : Except String (List Finding) :=
  match jsToLower tool with
  | "zap" => .ok (executeZapScan env.zap target policy)
  | "osv" => executeOSVScan env.osv target policy
  | "semgrep" => executeSemgrepScan env.semgrep target policy
  | "trivy" => executeTrivyScan env.trivy target policy
  | "github" => executeGitHubScan env.github target policy
  | _ => .error ("Unknown tool: " ++ tool)

/-- The body of `executeScan` (lines 57-111) with the settled per-tool
outcomes abstracted as `runTool`.  `Promise.allSettled` never rejects and the
result-merging `forEach`, `calculateSummary`, and field assignments are total,
so the `catch` branch of lines 104-110 (which would set `status = 'failed'`)
is unreachable: every run ends with `status = 'completed'`, fulfilled tools'
findings concatenated in tool order, and one
`` `Tool ${tool} failed: ${reason}` `` entry per rejected tool. -/
def executeScanWith (runTool : String → Except String (List Finding))
    (jobId : String) (tools : List String) : ScanResult :=
  let toolResults := tools.map (fun tool => (tool, runTool tool))
  let findings := toolResults.foldl (fun acc tr =>
    match tr.2 with
    | .ok fs => acc ++ fs
    | .error _ => acc) []
  let errors := toolResults.foldl (fun acc tr =>
    match tr.2 with
    | .ok _ => acc
    | .error e => acc ++ ["Tool " ++ tr.1 ++ " failed: " ++ e]) []
  { jobId := jobId
    status := "completed"
    tools := tools
    findings := findings
    summary := calculateSummary findings
    errors := errors }

/-- `ScanExecutionService.executeScan(jobId, target, policy)` (lines 57-111),
fanning out over `policy.tools` through `executeTool`. -/
def executeScan (env : AdapterEnv) (jobId : String) (target : ScanTarget)
    (policy : ScanPolicy) : ScanResult :=
  executeScanWith (executeTool env target policy) jobId policy.tools

/-! ## Findings store (`mockFindings` and its router, in the findings route
module bundled after policies.ts) -/

/-- JS `Array.prototype.findIndex`: index of the first element satisfying the
predicate. -/
def jsFindIndex (p : Finding → Bool) : List Finding → Option Nat
  | [] => none
  | f :: rest => if p f then some 0 else (jsFindIndex p rest).map (· + 1)

/-- One step of `addFindingsFromScan` (findings route lines 184-196): push the
finding if its id is new, else overwrite the first stored finding with that
id. -/
def upsertFinding (store : List Finding) (f : Finding) : List Finding :=
  match jsFindIndex (fun g => g.id = f.id) store with
  | none => store ++ [f]
  | some i => store.set i f

/-- `addFindingsFromScan(findings)` (findings route lines 182-198), acting on
an explicit store state instead of the module-level `mockFindings` array. -/
def addFindingsFromScan (store : List Finding) (findings : List Finding) :
    List Finding :=
  findings.foldl upsertFinding store

/-- `GET /findings` (findings route lines 200-233): apply the four optional
equality filters in order.  A query parameter that is absent (or empty, which
is JS-falsy) is `none`. -/
def queryFindings (store : List Finding)
    (severity status tool targetId : Option String) : List Finding :=
  let l := store
  let l := match severity with
    | none => l
    | some s => l.filter (fun f => f.severity = s)
  let l := match status with
    | none => l
    | some s => l.filter (fun f => f.status = s)
  let l := match tool with
    | none => l
    | some s => l.filter (fun f => f.tool = s)
  let l := match targetId with
    | none => l
    | some s => l.filter (fun f => f.targetId = s)
  l

/-! ## Job store (`scanResults` map in scans.ts) and the cancel endpoint -/

/-- The handler of `POST /scans/:jobId/cancel` (scans.ts lines 315-333): it
responds `{cancelled: true}` for every job id — the store (of any type) is
not consulted and not modified ("TODO: Implement actual scan cancellation"). -/
def cancelScan {α : Type} (store : α) (_jobId : String) : Bool × α :=
  (true, store)

/-- `scanResults.set(jobId, record)` projected to the record's `status` field
(the only field the claims consult): replace the entry or insert a new one. -/
def setJobStatus (store : List (String × String)) (jobId status : String) :
    List (String × String) :=
  match store.findIdx? (fun e => e.1 = jobId) with
  | none => store ++ [(jobId, status)]
  | some i => store.set i (jobId, status)

/-- `scanResults.get(jobId)?.status`. -/
def getJobStatus (store : List (String × String)) (jobId : String) :
    Option String :=
  (store.find? (fun e => e.1 = jobId)).map (fun e => e.2)

/-- The writes to `scanResults` that occur in scans.ts: the initial record of
`POST /scans` (line 141, status `'running'`), the background completion write
(line 175, the `executeScan` result), the background catch write (line 203,
status `'failed'`), and the cancel endpoint, which performs no write. -/
inductive ScanStoreOp where
  | submit (jobId : String)
  | finishScan (jobId : String) (tools : List String)
      (runTool : String → Except String (List Finding))
  | backgroundFail (jobId : String)
  | cancel (jobId : String)

/-- Apply one store operation. -/
def applyScanStoreOp (store : List (String × String)) :
    ScanStoreOp → List (String × String)
  | .submit jobId => setJobStatus store jobId "running"
  | .finishScan jobId tools runTool =>
      setJobStatus store jobId (executeScanWith runTool jobId tools).status
  | .backgroundFail jobId => setJobStatus store jobId "failed"
  | .cancel jobId => (cancelScan store jobId).2

/-- Run a sequence of store operations from the empty store. -/
def runScanStoreOps (ops : List ScanStoreOp) : List (String × String) :=
  ops.foldl applyScanStoreOp []

/-! ## Shared lemmas -/

/-- `mapToOwaspTop10` factored into its three rule tiers: the CWE and WASC
table contributions are concatenated, and the name heuristics apply exactly
when that concatenation is empty. -/
lemma mapToOwaspTop10_characterization (c w n : Option String) :
    mapToOwaspTop10 c w n =
      if (cweTierTags c ++ wascTierTags w).isEmpty then
        jsSetDedup (nameHeuristicTags (jsToLower (n.getD "")))
      else jsSetDedup (cweTierTags c ++ wascTierTags w) := by
  simp only [mapToOwaspTop10, cweTierTags, wascTierTags]
  rw [apply_ite jsSetDedup]

/-! ## Claim C3 -/

/-- Claim C3: the CWE tier of the OWASP tagging function maps CWE 89 to a tag
set containing `A03` and CWE 918 to one containing `A10`; but — refuting the
claim's third conjunct — CWE 306 maps to `['A07']` only: the source writes the
key `'306'` twice in the `cweToOwasp` object literal and JS keeps only the
later `['A07']` value, so the intended `A01` tag is silently dropped. -/
theorem c3_cwe_table_eval :
    mapToOwaspTop10 (some "89") none none = ["A03"] ∧
    mapToOwaspTop10 (some "918") none none = ["A10"] ∧
    mapToOwaspTop10 (some "306") none none = ["A07"] ∧
    "A01" ∉ mapToOwaspTop10 (some "306") none none := by
  decide

/-! ## Claim C4 -/

/-- Claim C4, counterexample: a CWE table entry exists for CWE 89, yet the
result for (CWE 89, WASC 48) is not that entry alone — the WASC table was
consulted as well, contradicting the claimed else-if precedence. -/
theorem c4_counterexample :
    jsObjLookup cweToOwasp "89" = some ["A03"] ∧
    mapToOwaspTop10 (some "89") (some "48") none = ["A03", "A10"] ∧
    mapToOwaspTop10 (some "89") (some "48") none ≠ jsSetDedup ["A03"] := by
  decide

/-- Claim C4, amended: the OWASP tagging function consults the CWE table and
the WASC table independently and returns the deduplicated concatenation of
both contributions; the case-insensitive name heuristics are applied exactly
when neither table contributed a tag.  (The claimed behavior — skipping the
WASC table whenever a CWE entry exists — is refuted by `c4_counterexample`.) -/
theorem c4_tier_union_amended (c w n : Option String) :
    mapToOwaspTop10 c w n =
      if (cweTierTags c ++ wascTierTags w).isEmpty then
        jsSetDedup (nameHeuristicTags (jsToLower (n.getD "")))
      else jsSetDedup (cweTierTags c ++ wascTierTags w) :=
  mapToOwaspTop10_characterization c w n

/-! ## Claim C5 -/

/-- Claim C5, counterexample: a Semgrep result whose `check_id` and `message`
match none of the keyword rules still receives the invented default tag
`'A03'` ("Default to A03 for most code issues"), so its tag set is not empty. -/
theorem c5_counterexample :
    semgrepOwaspTags "generic-rule" "some problem" = ["A03"] ∧
    semgrepOwaspTags "generic-rule" "some problem" ≠ [] := by
  decide

/-- Claim C5, amended: the ZAP-side tagging function does return the empty tag
set when no CWE entry, no WASC entry, and no name heuristic matches; but the
Semgrep mapping never returns an empty tag set — an unmatched result gets the
default tag `'A03'`, so the claim's "no default tag for the static-analysis
mapper" part fails (see `c5_counterexample`). -/
theorem c5_empty_tags_amended :
    (∀ c w n : Option String, cweTierTags c = [] → wascTierTags w = [] →
      nameHeuristicTags (jsToLower (n.getD "")) = [] → mapToOwaspTop10 c w n = []) ∧
    (∀ checkId message : String, semgrepOwaspTags checkId message ≠ []) := by
  constructor
  · intro c w n h1 h2 h3
    rw [mapToOwaspTop10_characterization, h1, h2, h3]
    simp [jsSetDedup, jsSetDedupAux]
  · intro checkId message h
    unfold semgrepOwaspTags at h
    dsimp only at h
    split_ifs at h

/-- Witness for `c5_empty_tags_amended` at explicit inputs. -/
theorem c5_empty_tags_amended_witness :
    mapToOwaspTop10 none none (some "harmless finding") = [] ∧
    semgrepOwaspTags "generic-rule" "some problem" ≠ [] :=
  ⟨c5_empty_tags_amended.1 none none (some "harmless finding")
      (by decide) (by decide) (by decide),
   c5_empty_tags_amended.2 "generic-rule" "some problem"⟩

/-! ## Claim C6 -/

/-- A ZAP alert at a given url, with no CWE/WASC ids, used as a concrete
filter input. -/
def zapAlertAt (url : String) : ZapAlert :=
  { name := none, risk := "High", confidence := "High", url := some url,
    cweid := none, wascid := none }

/-- Claim C6: a finding is dropped by the exclusion filter iff some policy
pattern — each `*` standing for `.*` in an unanchored regex — matches its
location; with pattern `*/admin/*` the alert at `http://x/api/admin/y` is
removed and the one at `http://x/api/public/y` is kept; an empty exclusion
list drops nothing. -/
theorem c6_exclusion_filter :
    (∀ alerts : List ZapAlert, zapFilterAlerts [] alerts = alerts) ∧
    (∀ (patterns : List String) (alerts : List ZapAlert) (a : ZapAlert),
      a ∈ zapFilterAlerts patterns alerts ↔
        a ∈ alerts ∧ ∀ p ∈ patterns, globRegexTest p (a.url.getD "") = false) ∧
    zapFilterAlerts ["*/admin/*"]
        [zapAlertAt "http://x/api/admin/y", zapAlertAt "http://x/api/public/y"] =
      [zapAlertAt "http://x/api/public/y"] := by
  refine ⟨fun alerts => rfl, fun patterns alerts a => ?_, by decide⟩
  cases patterns with
  | nil => simp [zapFilterAlerts]
  | cons p ps =>
    simp [zapFilterAlerts, List.mem_filter, List.any_eq_true]

/-- Witness for the filter characterization of `c6_exclusion_filter` at an
explicit pattern list and alert. -/
theorem c6_exclusion_filter_witness :
    zapAlertAt "http://x/api/public/y" ∈ zapFilterAlerts ["*/admin/*"]
      [zapAlertAt "http://x/api/admin/y", zapAlertAt "http://x/api/public/y"] :=
  (c6_exclusion_filter.2.1 ["*/admin/*"] _ _).mpr ⟨by decide, by decide⟩

/-! ## Claim C7 -/

/-- A minimal concrete finding with the given id, severity and target. -/
def mkFinding (id severity targetId : String) : Finding :=
  { id := id, title := "finding", severity := severity, status := "open",
    tool := "ZAP", location := "loc", targetId := targetId,
    owaspTop10Tags := [] }

/-- Claim C7, counterexample: a job with one finding of severity `'info'`
(which `mapZapRiskToSeverity` produces for ZAP's `Informational` risk) has
`summary.total = 1`, yet every per-severity bucket is 0 — the summary has no
`info` count at all, so the per-severity counts do not account for every
finding. -/
theorem c7_counterexample :
    mapZapRiskToSeverity "Informational" = "info" ∧
    calculateSummary [mkFinding "f-info" "info" "t"] =
      { total := 1, critical := 0, high := 0, medium := 0, low := 0 } ∧
    (calculateSummary [mkFinding "f-info" "info" "t"]).critical +
        (calculateSummary [mkFinding "f-info" "info" "t"]).high +
        (calculateSummary [mkFinding "f-info" "info" "t"]).medium +
        (calculateSummary [mkFinding "f-info" "info" "t"]).low ≠
      (calculateSummary [mkFinding "f-info" "info" "t"]).total := by
  decide

/-- Every finding list splits into the four counted severities and the rest. -/
lemma severity_partition (fs : List Finding) :
    fs.length =
      (fs.filter (fun f => f.severity = "critical")).length +
      (fs.filter (fun f => f.severity = "high")).length +
      (fs.filter (fun f => f.severity = "medium")).length +
      (fs.filter (fun f => f.severity = "low")).length +
      (fs.filter (fun f => f.severity ≠ "critical" ∧ f.severity ≠ "high" ∧
        f.severity ≠ "medium" ∧ f.severity ≠ "low")).length := by
  induction fs with
  | nil => rfl
  | cons f fs ih =>
    by_cases h1 : f.severity = "critical"
    · simp [List.filter_cons, h1] at ih ⊢; omega
    · by_cases h2 : f.severity = "high"
      · simp [List.filter_cons, h1, h2] at ih ⊢; omega
      · by_cases h3 : f.severity = "medium"
        · simp [List.filter_cons, h1, h2, h3] at ih ⊢; omega
        · by_cases h4 : f.severity = "low"
          · simp [List.filter_cons, h1, h2, h3, h4] at ih ⊢; omega
          · simp [List.filter_cons, h1, h2, h3, h4] at ih ⊢; omega

/-- Claim C7, amended: the summary's `total` is the length of the findings
array and each of the **four** buckets (`critical`, `high`, `medium`, `low` —
there is no `info` bucket) counts the findings of that severity; the total
equals the sum of the four buckets plus the number of findings whose severity
is none of the four (e.g. `info`). -/
theorem c7_summary_amended (fs : List Finding) :
    (calculateSummary fs).total = fs.length ∧
    (calculateSummary fs).critical =
      (fs.filter (fun f => f.severity = "critical")).length ∧
    (calculateSummary fs).high =
      (fs.filter (fun f => f.severity = "high")).length ∧
    (calculateSummary fs).medium =
      (fs.filter (fun f => f.severity = "medium")).length ∧
    (calculateSummary fs).low =
      (fs.filter (fun f => f.severity = "low")).length ∧
    (calculateSummary fs).total =
      (calculateSummary fs).critical + (calculateSummary fs).high +
      (calculateSummary fs).medium + (calculateSummary fs).low +
      (fs.filter (fun f => f.severity ≠ "critical" ∧ f.severity ≠ "high" ∧
        f.severity ≠ "medium" ∧ f.severity ≠ "low")).length :=
  ⟨rfl, rfl, rfl, rfl, rfl, severity_partition fs⟩

/-! ## Claim C1 -/

/-- Claim C1: the orchestrator never escalates an individual tool's rejection
to job-level failure — every run of the execution body ends with status
`'completed'` — and in the two-tool scenario where tool `A` rejects and tool
`B` fulfills with 3 findings, the job ends `'completed'` with 3 findings and
exactly one recorded error. -/
theorem c1_tool_error_isolation :
    (∀ (runTool : String → Except String (List Finding)) (jobId : String)
        (tools : List String),
      (executeScanWith runTool jobId tools).status = "completed") ∧
    (∀ (jobId e : String) (fs : List Finding), fs.length = 3 →
      (executeScanWith (fun t => if t = "B" then .ok fs else .error e)
          jobId ["A", "B"]).status = "completed" ∧
      (executeScanWith (fun t => if t = "B" then .ok fs else .error e)
          jobId ["A", "B"]).findings.length = 3 ∧
      (executeScanWith (fun t => if t = "B" then .ok fs else .error e)
          jobId ["A", "B"]).errors.length = 1) := by
  refine ⟨fun _ _ _ => rfl, fun jobId e fs h => ⟨rfl, ?_, rfl⟩⟩
  simpa [executeScanWith] using h

/-- Three concrete findings for the C1 witness scenario. -/
def threeFindings : List Finding :=
  [mkFinding "w1" "high" "t", mkFinding "w2" "low" "t", mkFinding "w3" "info" "t"]

/-- Witness for `c1_tool_error_isolation` at explicit inputs. -/
theorem c1_tool_error_isolation_witness :
    (executeScanWith (fun t => if t = "B" then .ok threeFindings else .error "boom")
        "job-1" ["A", "B"]).status = "completed" ∧
    (executeScanWith (fun t => if t = "B" then .ok threeFindings else .error "boom")
        "job-1" ["A", "B"]).findings.length = 3 ∧
    (executeScanWith (fun t => if t = "B" then .ok threeFindings else .error "boom")
        "job-1" ["A", "B"]).errors.length = 1 :=
  c1_tool_error_isolation.2 "job-1" "boom" threeFindings (by decide)

/-! ## Claim C2 -/

/-- A ZAP environment whose calls all succeed immediately. -/
def zapEnvOk : ZapEnv :=
  { startSpider := .ok "1", spiderStatus := fun _ => .ok 100,
    getSpiderResults := .ok [], getAlerts := .ok [] }

/-- A Semgrep environment with the API key configured and trivially
succeeding calls. -/
def semgrepEnvConfigured : SemgrepEnv :=
  { apiKeyConfigured := true, scanRepository := fun _ _ => .ok "scan-1",
    getScanResults := fun _ => .ok [] }

/-- A Semgrep environment without the API key. -/
def semgrepEnvUnconfigured : SemgrepEnv :=
  { apiKeyConfigured := false, scanRepository := fun _ _ => .ok "scan-1",
    getScanResults := fun _ => .ok [] }

/-- A GitHub environment with the token configured and trivially succeeding
calls. -/
def githubEnvConfigured : GitHubEnv :=
  { tokenConfigured := true, getSecurityAdvisories := fun _ _ => .ok [] }

/-- A GitHub environment without the token. -/
def githubEnvUnconfigured : GitHubEnv :=
  { tokenConfigured := false, getSecurityAdvisories := fun _ _ => .ok [] }

/-- An adapter environment with every credential configured. -/
def envConfigured : AdapterEnv :=
  { zap := zapEnvOk
    osv := { queryVulnerabilities := fun _ _ _ => .ok [] }
    semgrep := semgrepEnvConfigured
    trivy := { scanImage := fun _ => .ok { vulnerabilities := none } }
    github := githubEnvConfigured }

/-- A target carrying only a `url` identifier. -/
def targetUrlOnly : ScanTarget :=
  { id := "t-url", name := "Target", identifiers := [{ type := "url", value := "http://x" }] }

/-- A target carrying no identifiers at all. -/
def targetEmpty : ScanTarget := { id := "t0", name := "Empty", identifiers := [] }

/-- A policy with no exclusions and no ruleset override. -/
def policyPlain : ScanPolicy :=
  { id := "p", name := "P", tools := ["ZAP", "OSV"], exclusions := none, ruleset := none }

/-- Claim C2, counterexample: with the Semgrep API key configured, a target
without a `repository` identifier makes the static-analysis adapter **throw**
(`'No repository identifier found for Semgrep scan'`, rethrown by its catch)
instead of resolving with an empty finding list. -/
theorem c2_counterexample :
    executeSemgrepScan semgrepEnvConfigured targetUrlOnly policyPlain =
      .error "No repository identifier found for Semgrep scan" := rfl

/-- Claim C2, amended: the ZAP, OSV and Trivy adapters do resolve with `[]`
when their required identifier type is absent, and Semgrep/GitHub resolve with
`[]` when their credential is missing; but with the credential configured,
Semgrep and GitHub **reject** when the target has no `repository` identifier,
and that rejection is recorded as a tool-level error by the orchestrator (see
`c2_counterexample`). -/
theorem c2_missing_identifier_amended
    (env : AdapterEnv) (target : ScanTarget) (policy : ScanPolicy) :
    ((∀ i ∈ target.identifiers, i.type ≠ "url") →
      executeZapScan env.zap target policy = []) ∧
    ((∀ i ∈ target.identifiers, i.type ≠ "npm" ∧ i.type ≠ "pypi" ∧ i.type ≠ "maven") →
      executeOSVScan env.osv target policy = .ok []) ∧
    ((∀ i ∈ target.identifiers, i.type ≠ "container" ∧ i.type ≠ "image") →
      executeTrivyScan env.trivy target policy = .ok []) ∧
    (env.semgrep.apiKeyConfigured = false →
      executeSemgrepScan env.semgrep target policy = .ok []) ∧
    (env.semgrep.apiKeyConfigured = true →
      (∀ i ∈ target.identifiers, i.type ≠ "repository") →
      executeSemgrepScan env.semgrep target policy =
        .error "No repository identifier found for Semgrep scan") ∧
    (env.github.tokenConfigured = false →
      executeGitHubScan env.github target policy = .ok []) ∧
    (env.github.tokenConfigured = true →
      (∀ i ∈ target.identifiers, i.type ≠ "repository") →
      executeGitHubScan env.github target policy =
        .error "No repository identifier found for GitHub scan") := by
  refine ⟨?_, ?_, ?_, ?_, ?_, ?_, ?_⟩
  · intro h
    have hz : target.identifiers.find? (fun i => i.type = "url") = none := by
      rw [List.find?_eq_none]
      intro x hx
      simpa using h x hx
    simp [executeZapScan, executeZapScanE, hz]
  · intro h
    have hp : target.identifiers.filter
        (fun i => i.type = "npm" || i.type = "pypi" || i.type = "maven") = [] := by
      rw [List.filter_eq_nil_iff]
      intro x hx
      obtain ⟨n1, n2, n3⟩ := h x hx
      simp [n1, n2, n3]
    simp [executeOSVScan, hp]
  · intro h
    have hp : target.identifiers.filter
        (fun i => i.type = "container" || i.type = "image") = [] := by
      rw [List.filter_eq_nil_iff]
      intro x hx
      obtain ⟨n1, n2⟩ := h x hx
      simp [n1, n2]
    simp [executeTrivyScan, hp]
  · intro h
    simp [executeSemgrepScan, h]
  · intro h hrepo
    have hz : target.identifiers.find? (fun i => i.type = "repository") = none := by
      rw [List.find?_eq_none]
      intro x hx
      simpa using hrepo x hx
    simp [executeSemgrepScan, h, hz]
  · intro h
    simp [executeGitHubScan, h]
  · intro h hrepo
    have hz : target.identifiers.find? (fun i => i.type = "repository") = none := by
      rw [List.find?_eq_none]
      intro x hx
      simpa using hrepo x hx
    simp [executeGitHubScan, h, hz]

/-- Witness for `c2_missing_identifier_amended` at explicit environments and
the identifier-free target. -/
theorem c2_missing_identifier_amended_witness :
    executeZapScan envConfigured.zap targetEmpty policyPlain = [] ∧
    executeOSVScan envConfigured.osv targetEmpty policyPlain = .ok [] ∧
    executeTrivyScan envConfigured.trivy targetEmpty policyPlain = .ok [] ∧
    executeSemgrepScan semgrepEnvUnconfigured targetEmpty policyPlain = .ok [] ∧
    executeSemgrepScan envConfigured.semgrep targetEmpty policyPlain =
      .error "No repository identifier found for Semgrep scan" ∧
    executeGitHubScan githubEnvUnconfigured targetEmpty policyPlain = .ok [] ∧
    executeGitHubScan envConfigured.github targetEmpty policyPlain =
      .error "No repository identifier found for GitHub scan" := by
  have h := c2_missing_identifier_amended envConfigured targetEmpty policyPlain
  have hu := c2_missing_identifier_amended
    { envConfigured with semgrep := semgrepEnvUnconfigured, github := githubEnvUnconfigured }
    targetEmpty policyPlain
  exact ⟨h.1 (by decide), h.2.1 (by decide), h.2.2.1 (by decide),
    hu.2.2.2.1 rfl, h.2.2.2.2.1 rfl (by decide),
    hu.2.2.2.2.2.1 rfl, h.2.2.2.2.2.2 rfl (by decide)⟩

/-! ## Claim C8 -/

deriving instance DecidableEq for Except

/-- A spider-status poll that forever reports 0% progress. -/
def stallPoll : Nat → Except String Nat := fun _ => .ok 0

/-- A ZAP environment whose spider never completes. -/
def zapEnvStalled : ZapEnv :=
  { startSpider := .ok "1", spiderStatus := stallPoll,
    getSpiderResults := .ok [], getAlerts := .ok [] }

/-- `envConfigured` with the stalled ZAP environment. -/
def envStalledZap : AdapterEnv := { envConfigured with zap := zapEnvStalled }

/-- A policy whose only allowed tool is ZAP. -/
def policyZapOnly : ScanPolicy :=
  { id := "p-zap", name := "ZAP only", tools := ["ZAP"], exclusions := none,
    ruleset := none }

/-- Claim C8, counterexample: when the spider poll never reaches 100%, the
polling loop does reject with the 2-minute timeout error, but `executeZapScan`
catches it and resolves with `[]`; the executed job therefore completes with
**no** recorded error and an empty finding list — the timeout is silently
converted into an empty result instead of being surfaced in `errors`. -/
theorem c8_counterexample :
    waitForScanCompletion stallPoll "spider" 120000 =
      .error "spider scan timed out after 120 seconds" ∧
    executeZapScanE zapEnvStalled targetUrlOnly policyZapOnly =
      .error "spider scan timed out after 120 seconds" ∧
    executeZapScan zapEnvStalled targetUrlOnly policyZapOnly = [] ∧
    (executeScan envStalledZap "job-1" targetUrlOnly policyZapOnly).errors = [] ∧
    (executeScan envStalledZap "job-1" targetUrlOnly policyZapOnly).status =
      "completed" ∧
    (executeScan envStalledZap "job-1" targetUrlOnly policyZapOnly).findings = [] := by
  decide

/-- A never-completing poll makes `waitForScanCompletionAux` reject with the
timeout message, for every fuel and iteration index. -/
lemma waitAux_times_out (poll : Nat → Except String Nat) (scanType : String)
    (maxWaitTime : Nat) (h : ∀ k p, poll k = .ok p → p < 100) :
    ∀ (fuel k : Nat),
      waitForScanCompletionAux poll scanType maxWaitTime k fuel =
        .error (zapWaitMsg scanType maxWaitTime) := by
  intro fuel
  induction fuel with
  | zero => intro k; rfl
  | succ n ih =>
    intro k
    unfold waitForScanCompletionAux
    split
    · split
      next progress hp =>
        have hlt := h k progress hp
        rw [if_neg (by omega)]
        exact ih (k + 1)
      next e hp => exact ih (k + 1)
    · rfl

/-- Claim C8, amended: a polling loop whose status never reaches 100% always
rejects with the phase-timeout error; but `executeZapScan` converts **every**
rejection of its body into a resolved empty finding list, so a ZAP-only job
records no error at all — the timeout is not surfaced in the job's `errors`
(see `c8_counterexample`). -/
theorem c8_timeout_swallowed_amended :
    (∀ (poll : Nat → Except String Nat) (scanType : String) (maxWaitTime : Nat),
      (∀ k p, poll k = .ok p → p < 100) →
      waitForScanCompletion poll scanType maxWaitTime =
        .error (zapWaitMsg scanType maxWaitTime)) ∧
    (∀ (env : ZapEnv) (target : ScanTarget) (policy : ScanPolicy) (e : String),
      executeZapScanE env target policy = .error e →
      executeZapScan env target policy = []) ∧
    (∀ (env : AdapterEnv) (jobId : String) (target : ScanTarget)
        (policy : ScanPolicy),
      policy.tools = ["ZAP"] →
      (executeScan env jobId target policy).errors = []) := by
  refine ⟨?_, ?_, ?_⟩
  · intro poll scanType maxWaitTime h
    exact waitAux_times_out poll scanType maxWaitTime h _ 0
  · intro env target policy e h
    simp [executeZapScan, h]
  · intro env jobId target policy h
    have hz : executeTool env target policy "ZAP" =
        .ok (executeZapScan env.zap target policy) := rfl
    simp [executeScan, executeScanWith, h, hz]

/-- Witness for `c8_timeout_swallowed_amended` at explicit inputs. -/
theorem c8_timeout_swallowed_amended_witness :
    waitForScanCompletion stallPoll "spider" 5000 = .error (zapWaitMsg "spider" 5000) ∧
    executeZapScan zapEnvStalled targetUrlOnly policyZapOnly = [] ∧
    (executeScan envStalledZap "job-2" targetUrlOnly policyZapOnly).errors = [] :=
  ⟨c8_timeout_swallowed_amended.1 stallPoll "spider" 5000
      (by intro k p hp; injection hp with h; omega),
   c8_timeout_swallowed_amended.2.1 zapEnvStalled targetUrlOnly policyZapOnly
      "spider scan timed out after 120 seconds" (by decide),
   c8_timeout_swallowed_amended.2.2 envStalledZap "job-2" targetUrlOnly
      policyZapOnly rfl⟩

/-! ## Claim C9 -/

/-- A finding produced by an earlier job for the shared target. -/
def findingOne : Finding := mkFinding "finding-1" "high" "t-shared"

/-- The single finding produced by the later job for the same target. -/
def findingTwo : Finding := mkFinding "finding-2" "high" "t-shared"

/-- Claim C9, counterexample: the findings store is global across jobs.  After
an earlier job on target `t-shared` stored `findingOne`, a later job on the
same target stores `findingTwo`; querying the findings endpoint by that
`targetId` then returns both findings — not exactly the later job's findings. -/
theorem c9_counterexample :
    queryFindings
        (addFindingsFromScan (addFindingsFromScan [] [findingOne]) [findingTwo])
        none none none (some "t-shared") = [findingOne, findingTwo] ∧
    [findingOne, findingTwo] ≠ [findingTwo] := by
  decide

/-- `jsFindIndex` misses when the predicate holds nowhere. -/
lemma jsFindIndex_eq_none (p : Finding → Bool) :
    ∀ store : List Finding, (∀ g ∈ store, p g = false) →
      jsFindIndex p store = none := by
  intro store
  induction store with
  | nil => intro _; rfl
  | cons g store ih =>
    intro h
    unfold jsFindIndex
    rw [if_neg (by simp [h g (List.mem_cons_self g store)])]
    rw [ih (fun g' hg' => h g' (List.mem_cons_of_mem g hg'))]
    rfl

/-- When every incoming finding has a fresh id (fresh w.r.t. the store and
pairwise), `addFindingsFromScan` is a plain append. -/
lemma addFindingsFromScan_append (fs : List Finding) :
    ∀ store : List Finding,
      (∀ f ∈ fs, ∀ g ∈ store, g.id ≠ f.id) →
      (fs.map (fun f => f.id)).Nodup →
      addFindingsFromScan store fs = store ++ fs := by
  induction fs with
  | nil => intro store _ _; simp [addFindingsFromScan]
  | cons f fs ih =>
    intro store hFresh hNodup
    have hup : upsertFinding store f = store ++ [f] := by
      unfold upsertFinding
      rw [jsFindIndex_eq_none _ store (fun g hg => by
        simp [hFresh f (List.mem_cons_self f fs) g hg])]
    have hcons : (∀ x ∈ fs, ¬ x.id = f.id) ∧ (fs.map (fun f => f.id)).Nodup := by
      simpa using hNodup
    have hNodup' : (fs.map (fun f => f.id)).Nodup := hcons.2
    have hHead : ∀ f' ∈ fs, f.id ≠ f'.id := by
      intro f' hf' hEq
      exact hcons.1 f' hf' hEq.symm
    have hFresh' : ∀ f' ∈ fs, ∀ g ∈ store ++ [f], g.id ≠ f'.id := by
      intro f' hf' g hg
      rcases List.mem_append.mp hg with hg' | hg'
      · exact hFresh f' (List.mem_cons_of_mem f hf') g hg'
      · rcases List.mem_singleton.mp hg' with rfl
        exact hHead f' hf'
    calc addFindingsFromScan store (f :: fs)
        = addFindingsFromScan (upsertFinding store f) fs := rfl
      _ = (store ++ [f]) ++ fs := by rw [hup]; exact ih _ hFresh' hNodup'
      _ = store ++ f :: fs := by simp

/-- Claim C9, amended: querying the findings endpoint by `targetId` returns
exactly the job's findings only under side conditions the code does not
guarantee: the job's findings must carry pairwise-distinct ids that do not
collide with the store, and the global store must hold no earlier finding for
that target.  In general the query also returns every earlier finding for the
same target (see `c9_counterexample`). -/
theorem c9_roundtrip_amended (store fs : List Finding) (t : String)
    (hT : ∀ f ∈ fs, f.targetId = t)
    (hIds : (fs.map (fun f => f.id)).Nodup)
    (hFresh : ∀ f ∈ fs, ∀ g ∈ store, g.id ≠ f.id)
    (hStore : ∀ g ∈ store, g.targetId ≠ t) :
    queryFindings (addFindingsFromScan store fs) none none none (some t) = fs := by
  have h1 : store.filter (fun f => f.targetId = t) = [] :=
    List.filter_eq_nil_iff.mpr (fun g hg => by simp [hStore g hg])
  have h2 : fs.filter (fun f => f.targetId = t) = fs :=
    List.filter_eq_self.mpr (fun f hf => by simp [hT f hf])
  rw [addFindingsFromScan_append fs store hFresh hIds]
  unfold queryFindings
  dsimp only
  rw [List.filter_append, h1, h2]
  rfl

/-- A pre-existing finding for a different target, for the C9 witness. -/
def findingOld : Finding := mkFinding "finding-old" "low" "t-other"

/-- Witness for `c9_roundtrip_amended` at explicit inputs. -/
theorem c9_roundtrip_amended_witness :
    queryFindings (addFindingsFromScan [findingOld] [findingOne, findingTwo])
        none none none (some "t-shared") = [findingOne, findingTwo] :=
  c9_roundtrip_amended [findingOld] [findingOne, findingTwo] "t-shared"
    (by decide) (by decide) (by decide) (by decide)

/-! ## Claim C10 -/

/-- The statuses that can ever be written into the job store. -/
def jobStatusWritable (s : String) : Prop :=
  s = "running" ∨ s = "completed" ∨ s = "failed"

/-- Membership after a `setJobStatus` write. -/
lemma setJobStatus_mem {store : List (String × String)} {jobId status : String}
    {e : String × String} (he : e ∈ setJobStatus store jobId status) :
    e ∈ store ∨ e = (jobId, status) := by
  unfold setJobStatus at he
  cases h : store.findIdx? (fun x => x.1 = jobId) with
  | none =>
    rw [h] at he
    rcases List.mem_append.mp he with h' | h'
    · exact Or.inl h'
    · exact Or.inr (List.mem_singleton.mp h')
  | some i =>
    rw [h] at he
    rcases List.mem_or_eq_of_mem_set he with h' | h'
    · exact Or.inl h'
    · exact Or.inr h'

/-- Every entry of the job store reached by any operation sequence carries one
of the three writable statuses. -/
lemma scanStore_status_invariant (ops : List ScanStoreOp) :
    ∀ store : List (String × String),
      (∀ e ∈ store, jobStatusWritable e.2) →
      ∀ e ∈ ops.foldl applyScanStoreOp store, jobStatusWritable e.2 := by
  induction ops with
  | nil => intro store h; simpa using h
  | cons op ops ih =>
    intro store h
    simp only [List.foldl_cons]
    apply ih
    intro e he
    cases op with
    | submit jobId =>
      rcases setJobStatus_mem he with h' | h'
      · exact h e h'
      · rw [h']; exact Or.inl rfl
    | finishScan jobId tools runTool =>
      rcases setJobStatus_mem he with h' | h'
      · exact h e h'
      · rw [h']; exact Or.inr (Or.inl rfl)
    | backgroundFail jobId =>
      rcases setJobStatus_mem he with h' | h'
      · exact h e h'
      · rw [h']; exact Or.inr (Or.inr rfl)
    | cancel jobId => exact h e he

/-- Claim C10: the cancel endpoint answers `{cancelled: true}` for every job
id — stored or not — while leaving the store untouched, and consequently no
job record ever carries the status `'cancelled'` under any sequence of the
store's operations. -/
theorem c10_cancel_noop :
    (∀ (α : Type) (store : α) (jobId : String),
      cancelScan store jobId = (true, store)) ∧
    (∀ (ops : List ScanStoreOp) (jobId status : String),
      getJobStatus (runScanStoreOps ops) jobId = some status →
      status ≠ "cancelled") := by
  refine ⟨fun _ _ _ => rfl, ?_⟩
  intro ops jobId status h
  unfold getJobStatus at h
  rcases Option.map_eq_some'.mp h with ⟨e, hfind, hstat⟩
  have hmem := List.mem_of_find?_eq_some hfind
  have hOK := scanStore_status_invariant ops [] (by simp) e hmem
  rw [← hstat]
  rcases hOK with h' | h' | h' <;> rw [h'] <;> decide

/-- Witness for `c10_cancel_noop` at an explicit store and operation list. -/
theorem c10_cancel_noop_witness :
    cancelScan [("job-1", "running")] "job-1" = (true, [("job-1", "running")]) ∧
    "running" ≠ "cancelled" :=
  ⟨c10_cancel_noop.1 _ [("job-1", "running")] "job-1",
   c10_cancel_noop.2 [ScanStoreOp.submit "job-1", ScanStoreOp.cancel "job-1"]
     "job-1" "running" (by decide)⟩

end VibeChecker
